import Mathlib

/-!
Verification development for the travelbuddy backend service.

This file gives a shallow embedding, in Lean 4, of the parts of the
repository that the verified properties concern:

* the domain data model (`app/models/trip.py`, `app/models/checklist.py`,
  `app/models/common.py`),
* the checklist generator service (`app/services/checklist_generator.py`),
* the fixed-window rate limiter (`app/core/rate_limiter.py`),
* the memory health probe (`app/core/health.py`).

Modelling conventions:

* Python strings are Lean `String`s; `str.lower()` / `str.strip()` and the
  substring operator `in` are embedded as executable functions over the
  character list of the string (`pyLower`, `pyStrip`, `pyContains`), since
  the built-in `String` helpers do not reduce in the kernel.
* Python integers are `Int` (or `Nat` where the source value is a count
  that is never negative, such as the rate-limit request counter).
* `uuid4()` item ids and `datetime.utcnow()` timestamps are fresh,
  nondeterministic per-call effects; they are abstracted out of the item
  model.  Every claim about generated items concerns only the
  deterministic fields `text`, `category`, `checked`, `priority` and
  `user_added`, and the one claim that mentions ids and timestamps does so
  only to exempt them.
* The `time.time()` clock of the rate limiter is passed in explicitly as
  an `Int` epoch second.
* Effectful failure (Python exceptions) becomes `Except`/`Option` results,
  and the outcome of the outbound LLM call is an explicit input to
  `generate_checklist`.
-/

/-- Embedding of Python `str.lower()` (the source only applies it to ASCII
text, where `Char.toLower` agrees with Python). -/
def pyLower (s : String) : String := ⟨s.data.map Char.toLower⟩

/-- Embedding of Python `str.strip()`: drop whitespace from both ends. -/
def pyStrip (s : String) : String :=
  ⟨((s.data.dropWhile Char.isWhitespace).reverse.dropWhile Char.isWhitespace).reverse⟩

/-- Helper for the Python substring operator: does `needle` occur as a
contiguous subsequence of the character list? -/
def containsSeq (needle : List Char) : List Char → Bool
  | [] => needle.isEmpty
  | c :: rest => needle.isPrefixOf (c :: rest) || containsSeq needle rest

/-- Embedding of the Python expression `needle in hay` on strings. -/
def pyContains (hay needle : String) : Bool :=
  containsSeq needle.data hay.data

/-- `app/models/trip.py` — `TransportType(str, Enum)`: valid transport
methods for trips. -/
inductive TransportType where
  | car
  | train
  | plane
  | bus
  | other
deriving DecidableEq, Repr

/-- Coercion of a raw string into the `TransportType` enumeration, as
performed by pydantic when validating the `transport` field; an
unrecognised string is a validation failure (`none`). -/
def TransportType.ofString (s : String) : Option TransportType :=
  if s = "car" then some .car
  else if s = "train" then some .train
  else if s = "plane" then some .plane
  else if s = "bus" then some .bus
  else if s = "other" then some .other
  else none

/-- The `.value` of a `TransportType` member. -/
def TransportType.val : TransportType → String
  | .car => "car"
  | .train => "train"
  | .plane => "plane"
  | .bus => "bus"
  | .other => "other"

/-- `app/models/checklist.py` — `PriorityLevel(str, Enum)`: valid priority
levels for checklist items. -/
inductive PriorityLevel where
  | high
  | medium
  | low
deriving DecidableEq, Repr

/-- Coercion of a raw string into the `PriorityLevel` enumeration
(`PriorityLevel(s)` in Python, which raises `ValueError` outside the three
member values, hence `none`). -/
def PriorityLevel.ofString (s : String) : Option PriorityLevel :=
  if s = "high" then some .high
  else if s = "medium" then some .medium
  else if s = "low" then some .low
  else none

/-- The `.value` of a `PriorityLevel` member. -/
def PriorityLevel.val : PriorityLevel → String
  | .high => "high"
  | .medium => "medium"
  | .low => "low"

/-- `app/models/trip.py` — `TripDataResponse`: the trip payload consumed
by the checklist generator.  The model declares plain `str`/`int` fields
with no constraints and no whitespace stripping. -/
structure TripDataResponse where
  location : String
  days : Int
  transport : TransportType
  occasion : String
  notes : Option String
  preferences : Option (List String)
deriving DecidableEq, Repr

/-- The validation constraints of `TripDataRequest` (`app/models/trip.py`),
as a predicate on an already-constructed trip: location and occasion are
2–100 characters, days is 1–365, notes is at most 500 characters,
preferences has at most 10 entries, each a non-empty string of at most 50
characters.  A "valid TripData" in the verified properties is one
satisfying this predicate. -/
def TripDataResponse.valid (t : TripDataResponse) : Prop :=
  2 ≤ t.location.length ∧ t.location.length ≤ 100 ∧
  1 ≤ t.days ∧ t.days ≤ 365 ∧
  2 ≤ t.occasion.length ∧ t.occasion.length ≤ 100 ∧
  (t.notes.all (fun n => decide (n.length ≤ 500)) = true) ∧
  (t.preferences.all
    (fun ps => decide (ps.length ≤ 10) &&
      ps.all (fun p => decide (p ≠ "") && decide (p.length ≤ 50))) = true)

instance (t : TripDataResponse) : Decidable t.valid := by
  unfold TripDataResponse.valid
  exact inferInstance

/-- `app/models/checklist.py` — `ChecklistItemResponse`, restricted to its
deterministic content fields.  The source model also carries `id` (a fresh
`uuid4()` string) and `created_at`/`updated_at` (both `datetime.utcnow()`
at construction time); those are nondeterministic per-call effects and are
abstracted out of the embedding. -/
structure ChecklistItemResponse where
  text : String
  category : String
  checked : Bool
  priority : PriorityLevel
  user_added : Bool
deriving DecidableEq, Repr

/-- `app/models/checklist.py` — `ChecklistGenerationResponse`, restricted
to its deterministic fields (the generated checklist `id` and the
`generated_at` timestamp are abstracted as for items). -/
structure ChecklistGenerationResponse where
  items : List ChecklistItemResponse
  trip_data : TripDataResponse
deriving DecidableEq, Repr

/-- The item templates of the static fallback catalog: Python dicts with
`text`, `category` and `priority` string entries. -/
structure ItemTemplate where
  text : String
  category : String
  priority : String
deriving DecidableEq, Repr

/-- `ChecklistGeneratorService._load_fallback_items`: the fixed catalog of
22 baseline fallback item templates, copied field by field from the
source. -/
def _load_fallback_items : List ItemTemplate :=
  [ -- Essential Documents
    ⟨"Passport or government-issued ID", "Documents", "high"⟩,
    ⟨"Travel insurance documents", "Documents", "high"⟩,
    ⟨"Hotel/accommodation confirmations", "Documents", "high"⟩,
    ⟨"Emergency contact information", "Documents", "high"⟩,
    -- Clothing Essentials
    ⟨"Underwear (enough for trip duration + 2 extra)", "Clothing", "high"⟩,
    ⟨"Socks (enough for trip duration + 2 extra)", "Clothing", "high"⟩,
    ⟨"Weather-appropriate outerwear", "Clothing", "medium"⟩,
    ⟨"Comfortable walking shoes", "Clothing", "medium"⟩,
    ⟨"Sleepwear", "Clothing", "medium"⟩,
    -- Health & Toiletries
    ⟨"Prescription medications", "Health", "high"⟩,
    ⟨"Toothbrush and toothpaste", "Toiletries", "high"⟩,
    ⟨"Deodorant", "Toiletries", "medium"⟩,
    ⟨"Shampoo and body wash", "Toiletries", "medium"⟩,
    ⟨"Sunscreen", "Health", "medium"⟩,
    -- Electronics
    ⟨"Phone and charger", "Electronics", "high"⟩,
    ⟨"Camera or phone for photos", "Electronics", "low"⟩,
    ⟨"Portable power bank", "Electronics", "medium"⟩,
    -- Money & Cards
    ⟨"Credit/debit cards", "Money", "high"⟩,
    ⟨"Cash in local currency", "Money", "medium"⟩,
    -- Miscellaneous
    ⟨"Reusable water bottle", "Miscellaneous", "medium"⟩,
    ⟨"Travel pillow", "Comfort", "low"⟩,
    ⟨"Entertainment (books, tablets, etc.)", "Entertainment", "low"⟩ ]

/-- `ChecklistGeneratorService._should_skip_item_for_transport`: skip
car-specific items for air travel and plane-specific items for car
travel, by case-insensitive substring matching on the item text. -/
def _should_skip_item_for_transport (item : ItemTemplate)
    (transport : TransportType) : Bool :=
  if transport = .plane && pyContains (pyLower item.text) "car" then
    true
  else if transport = .car &&
      (pyContains (pyLower item.text) "boarding" ||
       pyContains (pyLower item.text) "flight" ||
       pyContains (pyLower item.text) "airport") then
    true
  else
    false

/-- Construction of a `ChecklistItemResponse` from a catalog template, as
in the body of the loops of `_generate_fallback_items`,
`_get_transport_specific_items` and `_get_long_trip_items`:
`checked=False`, `user_added=False`, priority via `PriorityLevel(...)`.
All catalog templates carry one of the three valid priority strings, so
the `ValueError` branch of the enum constructor is unreachable; the
embedding totalises it with a `medium` default that is never hit. -/
def item_from_template (t : ItemTemplate) : ChecklistItemResponse :=
  { text := t.text
    category := t.category
    checked := false
    priority := (PriorityLevel.ofString t.priority).getD .medium
    user_added := false }

/-- `ChecklistGeneratorService._get_transport_specific_items`: four extra
items for `plane`, four for `car`, none otherwise. -/
def _get_transport_specific_items (transport : TransportType) :
    List ChecklistItemResponse :=
  if transport = .plane then
    [ ⟨"Boarding passes (printed or mobile)", "Documents", "high"⟩,
      ⟨"Passport or ID", "Documents", "high"⟩,
      ⟨"Travel-sized toiletries (3-1-1 rule)", "Toiletries", "medium"⟩,
      ⟨"Entertainment for flight", "Electronics", "low"⟩ ].map item_from_template
  else if transport = .car then
    [ ⟨"Driver's license", "Documents", "high"⟩,
      ⟨"Car registration and insurance", "Documents", "high"⟩,
      ⟨"Phone car charger", "Electronics", "medium"⟩,
      ⟨"Snacks for the road", "Food", "low"⟩ ].map item_from_template
  else
    []

/-- `ChecklistGeneratorService._get_long_trip_items`: three additional
items for trips longer than a week. -/
def _get_long_trip_items : List ChecklistItemResponse :=
  [ ⟨"Extra underwear and socks", "Clothing", "medium"⟩,
    ⟨"Laundry detergent packets", "Toiletries", "low"⟩,
    ⟨"First aid kit", "Health", "medium"⟩ ].map item_from_template

/-- The `priority_order` dict of `_generate_fallback_items`:
`high → 0, medium → 1, low → 2` (the `.get(..., 1)` default is
unreachable because `PriorityLevel` is a closed enumeration). -/
def priority_order : PriorityLevel → Nat
  | .high => 0
  | .medium => 1
  | .low => 2

/-- The combined fallback list built by `_generate_fallback_items` before
the 25-item cap: the baseline catalog filtered by transport, then the
transport-specific items, then (for trips longer than 7 days) the
long-trip items. -/
def _combined_fallback_items (trip : TripDataResponse) :
    List ChecklistItemResponse :=
  let customized :=
    (_load_fallback_items.filter
      (fun it => ! _should_skip_item_for_transport it trip.transport)).map
      item_from_template
  let customized := customized ++ _get_transport_specific_items trip.transport
  if trip.days > 7 then customized ++ _get_long_trip_items else customized

/-- `ChecklistGeneratorService._generate_fallback_items`: the combined
list, capped at 25 items by a stable sort on `priority_order` followed by
truncation.  Python's `list.sort` is a stable sort; `List.insertionSort`
with the reflexive key comparison `priority_order a ≤ priority_order b`
is stable as well, so the two agree on every input. -/
def _generate_fallback_items (trip : TripDataResponse) :
    List ChecklistItemResponse :=
  let customized := _combined_fallback_items trip
  if customized.length > 25 then
    (List.insertionSort
      (fun a b => priority_order a.priority ≤ priority_order b.priority)
      customized).take 25
  else
    customized

/-- `ChecklistGeneratorService._parse_priority`: lower-case, strip, then
resolve through the synonym table, defaulting to `medium`. -/
def _parse_priority (priority_str : String) : PriorityLevel :=
  let priority_lower := pyStrip (pyLower priority_str)
  if priority_lower ∈ ["high", "essential", "critical", "important"] then
    .high
  else if priority_lower ∈ ["low", "optional", "nice-to-have"] then
    .low
  else
    .medium

/-- `ChecklistGeneratorService._create_fallback_response`: wrap the
fallback items and the input trip data (fresh id and timestamp
abstracted). -/
def _create_fallback_response (trip : TripDataResponse) :
    ChecklistGenerationResponse :=
  { items := _generate_fallback_items trip
    trip_data := trip }

/-- The observable outcome of the `await groq_client.generate_completion`
call followed by `_parse_ai_response`, as seen by `generate_checklist`:
either the completion succeeded and parsing produced a list of items, or
the call raised `GroqRateLimitError`, or it raised a (non-rate-limit)
`GroqAPIError`, or some other unexpected exception was raised. -/
inductive GroqOutcome where
  | ok (parsedItems : List ChecklistItemResponse)
  | rateLimit
  | apiError (msg : String)
  | unexpected (msg : String)

/-- `ChecklistGeneratorService.generate_checklist`, with the outcome of
the LLM call supplied explicitly: on a successful completion, use the
parsed items unless they number fewer than 5, in which case use the
fallback items; on `GroqRateLimitError` or `GroqAPIError`, return the
fallback response; on any other exception, raise
`ChecklistGenerationError` (modelled as `Except.error`). -/
def generate_checklist (trip_data : TripDataResponse)
    (outcome : GroqOutcome) : Except String ChecklistGenerationResponse :=
  match outcome with
  | .ok parsed =>
      let items :=
        if parsed = [] ∨ parsed.length < 5 then
          _generate_fallback_items trip_data
        else
          parsed
      .ok { items := items, trip_data := trip_data }
  | .rateLimit => .ok (_create_fallback_response trip_data)
  | .apiError _ => .ok (_create_fallback_response trip_data)
  | .unexpected msg =>
      .error ("Failed to generate checklist: " ++ msg)

/-- A raw (pre-validation) trip payload as it arrives in the JSON body of
the generate-checklist endpoint, assuming the JSON layer has already
produced fields of the right primitive shapes. -/
structure RawTripData where
  location : String
  days : Int
  transport : String
  occasion : String
  notes : Option String
  preferences : Option (List String)
deriving DecidableEq, Repr

namespace TripDataRequest

/-- Pydantic validation of `TripDataRequest` (`app/models/trip.py`):
strings are stripped (`str_strip_whitespace=True`), `location` and
`occasion` must be 2–100 characters, `days` 1–365, `notes` at most 500
characters, and `preferences` at most 10 entries which are stripped,
emptied of blank entries, bounded by 50 characters each and normalised to
`none` when nothing remains. -/
def validate (r : RawTripData) : Option TripDataResponse :=
  let location := pyStrip r.location
  if location.length < 2 ∨ location.length > 100 then none
  else if r.days < 1 ∨ r.days > 365 then none
  else
    match TransportType.ofString r.transport with
    | none => none
    | some tr =>
        let occasion := pyStrip r.occasion
        if occasion.length < 2 ∨ occasion.length > 100 then none
        else
          let notes := r.notes.map pyStrip
          if notes.any (fun n => decide (n.length > 500)) then none
          else
            match r.preferences with
            | none =>
                some ⟨location, r.days, tr, occasion, notes, none⟩
            | some ps =>
                if ps.length > 10 then none
                else
                  let filtered := (ps.map pyStrip).filter (fun p => p ≠ "")
                  if filtered.any (fun p => p.length > 50) then none
                  else
                    some ⟨location, r.days, tr, occasion, notes,
                          if filtered = [] then none else some filtered⟩

end TripDataRequest

namespace TripDataResponse

/-- Pydantic validation of `TripDataResponse` (`app/models/trip.py`): the
model declares plain `str`/`int`/`Optional` fields with no constraints
and no whitespace stripping, so the only way deserialization can fail is
an unrecognised `transport` enum value. -/
def deserialize (r : RawTripData) : Option TripDataResponse :=
  match TransportType.ofString r.transport with
  | none => none
  | some tr =>
      some ⟨r.location, r.days, tr, r.occasion, r.notes, r.preferences⟩

end TripDataResponse

/-- Deserialization of the body of the generate-checklist endpoint
(`ChecklistGenerationRequest` in `app/models/checklist.py`): its single
field `trip_data` is declared with type `TripDataResponse`, so the raw
trip payload is validated by the constraint-free response model, not by
`TripDataRequest`. -/
def ChecklistGenerationRequest.deserialize (r : RawTripData) :
    Option TripDataResponse :=
  TripDataResponse.deserialize r

/-- The rate-limit header set of `RateLimiter._get_headers`
(`app/core/rate_limiter.py`).  The Python implementation renders each
value with `str(...)`; the numeric values are modelled. -/
structure RateHeaders where
  limit : Nat
  remaining : Int
  reset : Int
  window : Nat
deriving DecidableEq, Repr

/-- `app/core/rate_limiter.py` — `RateLimiter`: quota, window length, and
the per-client map from id to `(request_count, window_start)`.  Epoch
times from `time.time()` are modelled as `Int` seconds. -/
structure RateLimiter where
  requests_per_window : Nat
  window_seconds : Nat
  clients : String → Option (Nat × Int)

/-- `RateLimiter._get_headers`: remaining quota and absolute reset time. -/
def RateLimiter.get_headers (rl : RateLimiter) (current_requests : Nat)
    (window_start : Int) : RateHeaders :=
  { limit := rl.requests_per_window
    remaining := max 0 ((rl.requests_per_window : Int) - (current_requests : Int))
    reset := window_start + (rl.window_seconds : Int)
    window := rl.window_seconds }

/-- Functional update of the client map (`self.clients[client_id] = v`). -/
def RateLimiter.record (rl : RateLimiter) (client_id : String)
    (v : Nat × Int) : RateLimiter :=
  { rl with clients := fun c => if c = client_id then some v else rl.clients c }

/-- `RateLimiter.is_allowed`, with the current `time.time()` value passed
explicitly: first request records `(1, now)` and allows; an elapsed
window resets to `(1, now)` and allows; a full window denies without
incrementing; otherwise the count is incremented in place. -/
def RateLimiter.is_allowed (rl : RateLimiter) (client_id : String)
    (now : Int) : (Bool × RateHeaders) × RateLimiter :=
  match rl.clients client_id with
  | none =>
      ((true, rl.get_headers 1 now), rl.record client_id (1, now))
  | some (request_count, window_start) =>
      if now - window_start ≥ (rl.window_seconds : Int) then
        ((true, rl.get_headers 1 now), rl.record client_id (1, now))
      else if request_count ≥ rl.requests_per_window then
        ((false, rl.get_headers request_count window_start), rl)
      else
        ((true, rl.get_headers (request_count + 1) window_start),
         rl.record client_id (request_count + 1, window_start))

/-- A rate limiter with no recorded clients, as freshly constructed. -/
def RateLimiter.fresh (limit window : Nat) : RateLimiter :=
  ⟨limit, window, fun _ => none⟩

/-- Serving a sequence of requests from one client at the given times:
the list of allow/deny decisions in order, and the final limiter state. -/
def RateLimiter.serveSeq (rl : RateLimiter) (client_id : String) :
    List Int → List Bool × RateLimiter
  | [] => ([], rl)
  | t :: ts =>
      let step := rl.is_allowed client_id t
      let rest := step.2.serveSeq client_id ts
      (step.1.1 :: rest.1, rest.2)

/-- `app/core/health.py` — `HealthStatus`. -/
inductive HealthStatus where
  | healthy
  | degraded
  | unhealthy
deriving DecidableEq, Repr

/-- The classification at the heart of `memory_health_check`: start from
`HEALTHY`, switch to `UNHEALTHY` above 90 percent, else to `DEGRADED`
above 75 percent. -/
def memory_status (memory_percent : ℚ) : HealthStatus :=
  if memory_percent > 90 then .unhealthy
  else if memory_percent > 75 then .degraded
  else .healthy

/-- `memory_health_check` (`app/core/health.py`), with its runtime input
made explicit: `some p` means `psutil` imported successfully and reported
a process memory percentage of `p` (a float, modelled as a rational);
`none` means the `import psutil` raised `ImportError`, which the probe
reports as `DEGRADED` rather than failing.  (A failure of the memory read
itself raises a generic exception and is reported `UNHEALTHY`; that
branch is outside the claims and not modelled.) -/
def memory_health_check (psutil_percent : Option ℚ) : HealthStatus :=
  match psutil_percent with
  | some p => memory_status p
  | none => .degraded

/-- `app/models/common.py` — `PaginationParams` (the `ge`/`le` field
constraints appear as hypotheses of the theorems). -/
structure PaginationParams where
  page : Nat
  limit : Nat
deriving DecidableEq, Repr

/-- `app/models/common.py` — `PaginatedResponse`. -/
structure PaginatedResponse (α : Type) where
  items : List α
  total : Nat
  page : Nat
  limit : Nat
  pages : Nat
  has_next : Bool
  has_prev : Bool
deriving DecidableEq, Repr

/-- `PaginatedResponse.create`: derive `pages = (total + limit - 1) // limit`
and the navigation flags from the raw inputs. -/
def PaginatedResponse.create {α : Type} (items : List α) (total : Nat)
    (pagination : PaginationParams) : PaginatedResponse α :=
  let pages := (total + pagination.limit - 1) / pagination.limit
  { items := items
    total := total
    page := pagination.page
    limit := pagination.limit
    pages := pages
    has_next := decide (pagination.page < pages)
    has_prev := decide (pagination.page > 1) }

/-! ## Helper lemmas about the fallback generator -/

/-- The fallback computation reads only the transport mode and the
`days > 7` test from the trip. -/
theorem fallback_congr (t1 t2 : TripDataResponse)
    (htr : t1.transport = t2.transport) (hd : t1.days > 7 ↔ t2.days > 7) :
    _combined_fallback_items t1 = _combined_fallback_items t2 ∧
    _generate_fallback_items t1 = _generate_fallback_items t2 := by
  have hcomb : _combined_fallback_items t1 = _combined_fallback_items t2 := by
    unfold _combined_fallback_items
    rw [htr]
    by_cases h : t1.days > 7
    · rw [if_pos h, if_pos (hd.mp h)]
    · rw [if_neg h, if_neg (fun hh => h (hd.mpr hh))]
  refine ⟨hcomb, ?_⟩
  unfold _generate_fallback_items
  rw [hcomb]

/-- Reduction of the fallback computation on an arbitrary trip to one of
two canonical trips (a short one and a long one) with the same
transport. -/
theorem fallback_reduce (loc occ : String) (no : Option String)
    (pr : Option (List String)) (days : Int) (tr : TransportType) :
    _combined_fallback_items ⟨loc, days, tr, occ, no, pr⟩ =
      (if days > 7 then _combined_fallback_items ⟨"", 8, tr, "", none, none⟩
       else _combined_fallback_items ⟨"", 1, tr, "", none, none⟩) ∧
    _generate_fallback_items ⟨loc, days, tr, occ, no, pr⟩ =
      (if days > 7 then _generate_fallback_items ⟨"", 8, tr, "", none, none⟩
       else _generate_fallback_items ⟨"", 1, tr, "", none, none⟩) := by
  by_cases hd : days > 7
  · simp only [if_pos hd]
    exact fallback_congr _ _ rfl ⟨fun _ => by norm_num, fun _ => hd⟩
  · simp only [if_neg hd]
    exact fallback_congr _ _ rfl ⟨fun h => absurd h hd, fun h => absurd h (by norm_num)⟩

/-- Every fallback list has at least 22 items, whatever the trip. -/
theorem fallback_len_ge (trip : TripDataResponse) :
    22 ≤ (_generate_fallback_items trip).length := by
  rcases trip with ⟨l, d, tr, o, n, p⟩
  rw [(fallback_reduce l o n p d tr).2]
  by_cases hd : d > 7
  · rw [if_pos hd]; cases tr <;> decide
  · rw [if_neg hd]; cases tr <;> decide

/-! ## Claims -/

/-- C1: for every valid `TripData`, if the LLM call raises the provider
rate-limit error or a generic provider API error, `generate_checklist`
returns a successful `ChecklistGenerationResponse` built from the
deterministic fallback item set, which contains at least 1 item, and no
error is propagated. -/
theorem claim_C1_provider_errors_fall_back (trip : TripDataResponse)
    (hv : trip.valid) :
    generate_checklist trip .rateLimit = .ok (_create_fallback_response trip) ∧
    (∀ msg, generate_checklist trip (.apiError msg) =
      .ok (_create_fallback_response trip)) ∧
    1 ≤ (_create_fallback_response trip).items.length := by
  refine ⟨rfl, fun _ => rfl, ?_⟩
  show 1 ≤ (_generate_fallback_items trip).length
  exact le_trans (by norm_num) (fallback_len_ge trip)

/-- Witness for C1 at the spec's example trip. -/
theorem claim_C1_witness :
    (⟨"Sydney", 7, .plane, "vacation", none, none⟩ : TripDataResponse).valid ∧
    generate_checklist ⟨"Sydney", 7, .plane, "vacation", none, none⟩ .rateLimit =
      .ok (_create_fallback_response ⟨"Sydney", 7, .plane, "vacation", none, none⟩) ∧
    1 ≤ (_create_fallback_response
          ⟨"Sydney", 7, .plane, "vacation", none, none⟩).items.length := by
  have hv : (⟨"Sydney", 7, .plane, "vacation", none, none⟩ : TripDataResponse).valid := by
    decide
  obtain ⟨h1, _, h3⟩ := claim_C1_provider_errors_fall_back _ hv
  exact ⟨hv, h1, h3⟩

/-- C3: for every valid `TripData`, when the parsed AI items number fewer
than 5 (including zero), `generate_checklist` discards them and returns
the deterministic fallback set: the response items are exactly the
fallback items, there are more than 2 of them, and (the AI items being
fresh objects, here expressed by their texts not occurring in the
fallback catalog) none of the returned items is one of the AI items. -/
theorem claim_C3_insufficient_items_use_fallback (trip : TripDataResponse)
    (parsed : List ChecklistItemResponse) (hv : trip.valid)
    (hlen : parsed.length < 5)
    (hdisj : ∀ p ∈ parsed, ∀ f ∈ _generate_fallback_items trip, p.text ≠ f.text) :
    generate_checklist trip (.ok parsed) =
      .ok ⟨_generate_fallback_items trip, trip⟩ ∧
    2 < (_generate_fallback_items trip).length ∧
    ∀ x ∈ _generate_fallback_items trip, x ∉ parsed := by
  refine ⟨?_, lt_of_lt_of_le (by norm_num) (fallback_len_ge trip), ?_⟩
  · simp only [generate_checklist]
    rw [if_pos (Or.inr hlen)]
  · intro x hx hxp
    exact hdisj x hxp x hx rfl

/-- Witness for C3: an AI response parsing to exactly 2 well-formed items
yields the fallback catalog, with more than 2 items and neither AI item
among them. -/
theorem claim_C3_witness :
    ([⟨"AI alpha item", "Misc", false, .medium, false⟩,
      ⟨"AI beta item", "Misc", false, .medium, false⟩] :
        List ChecklistItemResponse).length < 5 ∧
    generate_checklist ⟨"Sydney", 7, .plane, "vacation", none, none⟩
      (.ok [⟨"AI alpha item", "Misc", false, .medium, false⟩,
            ⟨"AI beta item", "Misc", false, .medium, false⟩]) =
      .ok ⟨_generate_fallback_items ⟨"Sydney", 7, .plane, "vacation", none, none⟩,
           ⟨"Sydney", 7, .plane, "vacation", none, none⟩⟩ ∧
    2 < (_generate_fallback_items
          ⟨"Sydney", 7, .plane, "vacation", none, none⟩).length ∧
    ∀ x ∈ _generate_fallback_items ⟨"Sydney", 7, .plane, "vacation", none, none⟩,
      x ∉ ([⟨"AI alpha item", "Misc", false, .medium, false⟩,
            ⟨"AI beta item", "Misc", false, .medium, false⟩] :
              List ChecklistItemResponse) := by
  have hv : (⟨"Sydney", 7, .plane, "vacation", none, none⟩ : TripDataResponse).valid := by
    decide
  have hlen : ([⟨"AI alpha item", "Misc", false, .medium, false⟩,
      ⟨"AI beta item", "Misc", false, .medium, false⟩] :
        List ChecklistItemResponse).length < 5 := by decide
  have hdisj : ∀ p ∈ ([⟨"AI alpha item", "Misc", false, .medium, false⟩,
      ⟨"AI beta item", "Misc", false, .medium, false⟩] :
        List ChecklistItemResponse),
      ∀ f ∈ _generate_fallback_items ⟨"Sydney", 7, .plane, "vacation", none, none⟩,
        p.text ≠ f.text := by decide
  obtain ⟨h1, h2, h3⟩ :=
    claim_C3_insufficient_items_use_fallback _ _ hv hlen hdisj
  exact ⟨hlen, h1, h2, h3⟩

/-- C4: for every valid trip whose combined fallback list exceeds 25
items, the generator returns exactly 25 items, equal to the stable
priority-bucketed ordering (all high-priority items first, then medium,
then low, each tier in original relative order) truncated to 25; in
particular no low-priority item is kept while any high-priority item is
dropped. -/
theorem claim_C4_cap_and_priority_order (trip : TripDataResponse)
    (hv : trip.valid) (hbig : 25 < (_combined_fallback_items trip).length) :
    (_generate_fallback_items trip).length = 25 ∧
    _generate_fallback_items trip =
      (((_combined_fallback_items trip).filter (fun x => x.priority = .high)) ++
       ((_combined_fallback_items trip).filter (fun x => x.priority = .medium)) ++
       ((_combined_fallback_items trip).filter (fun x => x.priority = .low))).take 25 ∧
    (∀ x ∈ _generate_fallback_items trip, ∀ y ∈ _combined_fallback_items trip,
      x.priority = .low → y.priority = .high →
        y ∈ _generate_fallback_items trip) := by
  rcases trip with ⟨l, d, tr, o, n, p⟩
  obtain ⟨hc, hg⟩ := fallback_reduce l o n p d tr
  rw [hc] at hbig
  rw [hg, hc]
  by_cases hd : d > 7
  · simp only [if_pos hd] at hbig ⊢
    cases tr <;>
      first
        | exact absurd hbig (by decide)
        | exact ⟨by decide, by decide, by decide⟩
  · simp only [if_neg hd] at hbig ⊢
    cases tr <;>
      first
        | exact absurd hbig (by decide)
        | exact ⟨by decide, by decide, by decide⟩

/-- Witness for C4 at a car trip, whose combined list has 26 items. -/
theorem claim_C4_witness :
    (⟨"Paris", 3, .car, "vacation", none, none⟩ : TripDataResponse).valid ∧
    25 < (_combined_fallback_items
            ⟨"Paris", 3, .car, "vacation", none, none⟩).length ∧
    (_generate_fallback_items ⟨"Paris", 3, .car, "vacation", none, none⟩).length
      = 25 := by
  have hv : (⟨"Paris", 3, .car, "vacation", none, none⟩ : TripDataResponse).valid := by
    decide
  have hbig : 25 < (_combined_fallback_items
      ⟨"Paris", 3, .car, "vacation", none, none⟩).length := by decide
  exact ⟨hv, hbig, (claim_C4_cap_and_priority_order _ hv hbig).1⟩

/-- C5: in the returned fallback list (transport-specific items included,
after the cap), no item text contains "car" when transport is plane, and
no item text contains "boarding", "flight" or "airport" when transport is
car; the matching is the source's case-insensitive substring test. -/
theorem claim_C5_transport_filtering (trip : TripDataResponse)
    (hv : trip.valid) :
    (trip.transport = .plane →
      ∀ x ∈ _generate_fallback_items trip,
        pyContains (pyLower x.text) "car" = false) ∧
    (trip.transport = .car →
      ∀ x ∈ _generate_fallback_items trip,
        pyContains (pyLower x.text) "boarding" = false ∧
        pyContains (pyLower x.text) "flight" = false ∧
        pyContains (pyLower x.text) "airport" = false) := by
  rcases trip with ⟨l, d, tr, o, n, p⟩
  obtain ⟨-, hg⟩ := fallback_reduce l o n p d tr
  constructor
  · intro htr
    simp only at htr
    subst htr
    rw [hg]
    by_cases hd : d > 7
    · rw [if_pos hd]; decide
    · rw [if_neg hd]; decide
  · intro htr
    simp only at htr
    subst htr
    rw [hg]
    by_cases hd : d > 7
    · rw [if_pos hd]; decide
    · rw [if_neg hd]; decide

/-- Witness for C5 at a plane trip and a car trip. -/
theorem claim_C5_witness :
    (⟨"Rome", 10, .plane, "holiday", none, none⟩ : TripDataResponse).valid ∧
    (∀ x ∈ _generate_fallback_items ⟨"Rome", 10, .plane, "holiday", none, none⟩,
       pyContains (pyLower x.text) "car" = false) ∧
    (∀ x ∈ _generate_fallback_items ⟨"Oslo", 10, .car, "holiday", none, none⟩,
       pyContains (pyLower x.text) "boarding" = false ∧
       pyContains (pyLower x.text) "flight" = false ∧
       pyContains (pyLower x.text) "airport" = false) := by
  have hv1 : (⟨"Rome", 10, .plane, "holiday", none, none⟩ : TripDataResponse).valid := by
    decide
  have hv2 : (⟨"Oslo", 10, .car, "holiday", none, none⟩ : TripDataResponse).valid := by
    decide
  exact ⟨hv1, (claim_C5_transport_filtering _ hv1).1 rfl,
         (claim_C5_transport_filtering _ hv2).2 rfl⟩

/-! ## Helper lemmas about the rate limiter -/

theorem record_clients_self (rl : RateLimiter) (cid : String) (v : Nat × Int) :
    (rl.record cid v).clients cid = some v := by
  simp [RateLimiter.record]

theorem record_limit (rl : RateLimiter) (cid : String) (v : Nat × Int) :
    (rl.record cid v).requests_per_window = rl.requests_per_window := rfl

theorem record_window (rl : RateLimiter) (cid : String) (v : Nat × Int) :
    (rl.record cid v).window_seconds = rl.window_seconds := rfl

/-- Branch 1 of `is_allowed`: unknown client. -/
theorem is_allowed_new (rl : RateLimiter) (cid : String) (now : Int)
    (h : rl.clients cid = none) :
    rl.is_allowed cid now = ((true, rl.get_headers 1 now), rl.record cid (1, now)) := by
  unfold RateLimiter.is_allowed
  rw [h]

/-- Branch 2 of `is_allowed`: elapsed window, reset. -/
theorem is_allowed_reset (rl : RateLimiter) (cid : String) (now : Int)
    (c : Nat) (w : Int) (h : rl.clients cid = some (c, w))
    (hw : now - w ≥ (rl.window_seconds : Int)) :
    rl.is_allowed cid now = ((true, rl.get_headers 1 now), rl.record cid (1, now)) := by
  unfold RateLimiter.is_allowed
  rw [h]
  simp only [if_pos hw]

/-- Branch 3 of `is_allowed`: window full, deny without incrementing. -/
theorem is_allowed_deny (rl : RateLimiter) (cid : String) (now : Int)
    (c : Nat) (w : Int) (h : rl.clients cid = some (c, w))
    (hw : now - w < (rl.window_seconds : Int)) (hc : c ≥ rl.requests_per_window) :
    rl.is_allowed cid now = ((false, rl.get_headers c w), rl) := by
  unfold RateLimiter.is_allowed
  rw [h]
  simp only [if_neg (not_le.mpr hw), if_pos hc]

/-- Branch 4 of `is_allowed`: same window, increment in place. -/
theorem is_allowed_inc (rl : RateLimiter) (cid : String) (now : Int)
    (c : Nat) (w : Int) (h : rl.clients cid = some (c, w))
    (hw : now - w < (rl.window_seconds : Int)) (hc : c < rl.requests_per_window) :
    rl.is_allowed cid now =
      ((true, rl.get_headers (c + 1) w), rl.record cid (c + 1, w)) := by
  unfold RateLimiter.is_allowed
  rw [h]
  simp only [if_neg (not_le.mpr hw), if_neg (not_le.mpr hc)]

/-- Serving a client whose window has room: every request in the same
window is allowed and the count climbs to the full quota. -/
theorem serve_within (cid : String) (t0 : Int) :
    ∀ (ts : List Int) (rl : RateLimiter) (j : Nat),
      rl.clients cid = some (j, t0) →
      1 ≤ j → j + ts.length = rl.requests_per_window →
      (∀ t ∈ ts, t - t0 < (rl.window_seconds : Int)) →
      ∃ rl' : RateLimiter,
        rl.serveSeq cid ts = (List.replicate ts.length true, rl') ∧
        rl'.requests_per_window = rl.requests_per_window ∧
        rl'.window_seconds = rl.window_seconds ∧
        rl'.clients cid = some (rl.requests_per_window, t0) := by
  intro ts
  induction ts with
  | nil =>
      intro rl j hcl hj hcount _
      refine ⟨rl, ?_, rfl, rfl, ?_⟩
      · simp [RateLimiter.serveSeq]
      · have hj' : j = rl.requests_per_window := by simpa using hcount
        rw [← hj']
        exact hcl
  | cons t ts ih =>
      intro rl j hcl hj hcount htimes
      have hlt : j < rl.requests_per_window := by
        simp only [List.length_cons] at hcount
        omega
      have hstep := is_allowed_inc rl cid t j t0 hcl
        (htimes t (List.mem_cons_self t ts)) hlt
      have hr1 : (rl.record cid (j + 1, t0)).clients cid = some (j + 1, t0) :=
        record_clients_self rl cid (j + 1, t0)
      obtain ⟨rl', hserve, hql, hqw, hqc⟩ :=
        ih (rl.record cid (j + 1, t0)) (j + 1) hr1 (Nat.le_succ_of_le hj)
          (by
            simp only [List.length_cons] at hcount
            simp only [record_limit]
            omega)
          (fun t' ht' => by
            simpa only [record_window] using htimes t' (List.mem_cons_of_mem t ht'))
      refine ⟨rl', ?_, by simpa only [record_limit] using hql,
        by simpa only [record_window] using hqw,
        by simpa only [record_limit] using hqc⟩
      simp only [RateLimiter.serveSeq, hstep, hserve, List.length_cons,
        List.replicate_succ]

/-- Serving a concatenated request sequence is serving the two parts in
order, threading the limiter state. -/
theorem serveSeq_append (rl : RateLimiter) (cid : String) (xs ys : List Int) :
    rl.serveSeq cid (xs ++ ys) =
      ((rl.serveSeq cid xs).1 ++ (((rl.serveSeq cid xs).2).serveSeq cid ys).1,
       (((rl.serveSeq cid xs).2).serveSeq cid ys).2) := by
  induction xs generalizing rl with
  | nil => simp [RateLimiter.serveSeq]
  | cons t ts ih => simp [RateLimiter.serveSeq, ih]

/-- C6: the rate limiter follows the fixed-window algorithm exactly.  An
unknown client is recorded as `(1, now)` and allowed; an elapsed window
resets to `(1, now)` and allows; a full window denies without
incrementing; otherwise the count is incremented in place and the request
allowed.  The headers always satisfy `remaining = max(0, limit - count)`
and `reset = window_start + window_seconds`.  Consequently, starting from
a fresh limiter, the first `limit` same-window requests of a client are
allowed, the `(limit+1)`-th same-window request is denied, and the next
request after the window has elapsed is allowed with a fresh count of 1. -/
theorem claim_C6_fixed_window_rate_limiter :
    (∀ (rl : RateLimiter) (cid : String) (now : Int),
      rl.clients cid = none →
        (rl.is_allowed cid now).1 = (true, rl.get_headers 1 now) ∧
        ((rl.is_allowed cid now).2).clients cid = some (1, now)) ∧
    (∀ (rl : RateLimiter) (cid : String) (now : Int) (c : Nat) (w : Int),
      rl.clients cid = some (c, w) → now - w ≥ (rl.window_seconds : Int) →
        (rl.is_allowed cid now).1 = (true, rl.get_headers 1 now) ∧
        ((rl.is_allowed cid now).2).clients cid = some (1, now)) ∧
    (∀ (rl : RateLimiter) (cid : String) (now : Int) (c : Nat) (w : Int),
      rl.clients cid = some (c, w) → now - w < (rl.window_seconds : Int) →
      c ≥ rl.requests_per_window →
        (rl.is_allowed cid now).1 = (false, rl.get_headers c w) ∧
        (rl.is_allowed cid now).2 = rl) ∧
    (∀ (rl : RateLimiter) (cid : String) (now : Int) (c : Nat) (w : Int),
      rl.clients cid = some (c, w) → now - w < (rl.window_seconds : Int) →
      c < rl.requests_per_window →
        (rl.is_allowed cid now).1 = (true, rl.get_headers (c + 1) w) ∧
        ((rl.is_allowed cid now).2).clients cid = some (c + 1, w)) ∧
    (∀ (rl : RateLimiter) (c : Nat) (w : Int),
      (rl.get_headers c w).remaining =
        max 0 ((rl.requests_per_window : Int) - (c : Int)) ∧
      (rl.get_headers c w).reset = w + (rl.window_seconds : Int)) ∧
    (∀ (limit W : Nat) (cid : String) (t0 tlast tafter : Int)
        (within : List Int),
      1 ≤ limit → within.length = limit - 1 →
      (∀ t ∈ within, t - t0 < (W : Int)) →
      tlast - t0 < (W : Int) → tafter - t0 ≥ (W : Int) →
        ((RateLimiter.fresh limit W).serveSeq cid
            (t0 :: (within ++ [tlast, tafter]))).1 =
          List.replicate limit true ++ [false, true] ∧
        (((RateLimiter.fresh limit W).serveSeq cid
            (t0 :: (within ++ [tlast, tafter]))).2).clients cid =
          some (1, tafter)) := by
  refine ⟨?_, ?_, ?_, ?_, ?_, ?_⟩
  · intro rl cid now h
    rw [is_allowed_new rl cid now h]
    exact ⟨rfl, record_clients_self rl cid (1, now)⟩
  · intro rl cid now c w h hw
    rw [is_allowed_reset rl cid now c w h hw]
    exact ⟨rfl, record_clients_self rl cid (1, now)⟩
  · intro rl cid now c w h hw hc
    rw [is_allowed_deny rl cid now c w h hw hc]
    exact ⟨rfl, rfl⟩
  · intro rl cid now c w h hw hc
    rw [is_allowed_inc rl cid now c w h hw hc]
    exact ⟨rfl, record_clients_self rl cid (c + 1, w)⟩
  · intro rl c w
    exact ⟨rfl, rfl⟩
  · intro limit W cid t0 tlast tafter within hlim hlen hwin hlast hafter
    have h0 : (RateLimiter.fresh limit W).clients cid = none := rfl
    have hstep0 := is_allowed_new (RateLimiter.fresh limit W) cid t0 h0
    have hr1c : ((RateLimiter.fresh limit W).record cid (1, t0)).clients cid
        = some (1, t0) := record_clients_self _ _ _
    obtain ⟨r2, hserve2, hq2l, hq2w, hq2c⟩ :=
      serve_within cid t0 within ((RateLimiter.fresh limit W).record cid (1, t0))
        1 hr1c le_rfl (by simp [RateLimiter.record, RateLimiter.fresh]; omega)
        (fun t ht => by
          simpa [RateLimiter.record, RateLimiter.fresh] using hwin t ht)
    have hq2l' : r2.requests_per_window = limit := by
      simpa [RateLimiter.record, RateLimiter.fresh] using hq2l
    have hq2w' : r2.window_seconds = W := by
      simpa [RateLimiter.record, RateLimiter.fresh] using hq2w
    have hq2c' : r2.clients cid = some (limit, t0) := by
      simpa [RateLimiter.record, RateLimiter.fresh] using hq2c
    have hstep3 := is_allowed_deny r2 cid tlast limit t0 hq2c'
      (by rw [hq2w']; exact hlast) (by rw [hq2l'])
    have hstep4 := is_allowed_reset r2 cid tafter limit t0 hq2c'
      (by rw [hq2w']; exact hafter)
    have hfull : (RateLimiter.fresh limit W).serveSeq cid
        (t0 :: (within ++ [tlast, tafter])) =
        (true :: (List.replicate within.length true ++ [false, true]),
         r2.record cid (1, tafter)) := by
      simp only [RateLimiter.serveSeq, hstep0, serveSeq_append, hserve2,
        hstep3, hstep4]
    rw [hfull]
    constructor
    · have hlen' : limit = within.length + 1 := by omega
      rw [hlen', List.replicate_succ]
      simp
    · exact record_clients_self r2 cid (1, tafter)

/-- Witness for C6: with a quota of 2 per 60-second window, requests at
times 0, 10, 30 give allow, allow, deny, and a request at time 60 is
allowed again with a fresh count. -/
theorem claim_C6_witness :
    (1 ≤ 2) ∧
    ((RateLimiter.fresh 2 60).serveSeq "client" (0 :: ([10] ++ [30, 60]))).1 =
      List.replicate 2 true ++ [false, true] ∧
    (((RateLimiter.fresh 2 60).serveSeq "client" (0 :: ([10] ++ [30, 60]))).2).clients
      "client" = some (1, 60) := by
  have h := claim_C6_fixed_window_rate_limiter.2.2.2.2.2 2 60 "client" 0 30 60 [10]
    (by norm_num) (by decide) (by decide) (by decide) (by decide)
  exact ⟨by norm_num, h.1, h.2⟩

/-- C2 (code evidence): the generate-checklist endpoint deserializes its
`trip_data` through the constraint-free `TripDataResponse` model, so the
raw payload from the repository's own endpoint test (location "A", days
3, transport "plane", occasion "test") is accepted and reaches the
generator even though `TripDataRequest` validation rejects it and it
violates the documented `TripData` constraints. -/
theorem claim_C2_endpoint_accepts_invalid_trip :
    ChecklistGenerationRequest.deserialize ⟨"A", 3, "plane", "test", none, none⟩ =
      some ⟨"A", 3, .plane, "test", none, none⟩ ∧
    TripDataRequest.validate ⟨"A", 3, "plane", "test", none, none⟩ = none ∧
    ¬ (⟨"A", 3, .plane, "test", none, none⟩ : TripDataResponse).valid := by
  decide

/-- C7 (counterexample): at a memory percentage of exactly 75 the probe
reports healthy, not degraded as the claim's "degraded when p is in the
range 75–90" requires. -/
theorem claim_C7_boundary_counterexample :
    memory_health_check (some 75) = .healthy ∧
    memory_health_check (some 75) ≠ .degraded := by
  decide

/-- C7 (amended): the memory probe reports healthy when the percentage is
at most 75, degraded when it is above 75 and at most 90, unhealthy when
it is above 90, and degraded when the memory-inspection capability
(psutil) is unavailable. -/
theorem claim_C7_memory_classification (p : ℚ) :
    (p ≤ 75 → memory_health_check (some p) = .healthy) ∧
    (75 < p → p ≤ 90 → memory_health_check (some p) = .degraded) ∧
    (90 < p → memory_health_check (some p) = .unhealthy) ∧
    memory_health_check none = .degraded := by
  refine ⟨?_, ?_, ?_, rfl⟩
  · intro h
    simp only [memory_health_check, memory_status]
    rw [if_neg (not_lt.mpr (le_trans h (by norm_num))), if_neg (not_lt.mpr h)]
  · intro h1 h2
    simp only [memory_health_check, memory_status]
    rw [if_neg (not_lt.mpr h2), if_pos h1]
  · intro h
    simp only [memory_health_check, memory_status]
    rw [if_pos h]

/-- Witness for the amended C7 at 80 percent. -/
theorem claim_C7_witness :
    ((75 : ℚ) < 80) ∧ ((80 : ℚ) ≤ 90) ∧
    memory_health_check (some 80) = .degraded := by
  exact ⟨by norm_num, by norm_num,
    (claim_C7_memory_classification 80).2.1 (by norm_num) (by norm_num)⟩

/-- C8: priority parsing is total over strings: after lowering and
trimming, members of the high synonym set map to high, members of the low
synonym set map to low, and everything else (including "medium",
"unknown" and the empty string) maps to medium. -/
theorem claim_C8_priority_synonyms (s : String) :
    (pyStrip (pyLower s) ∈
        (["high", "essential", "critical", "important"] : List String) →
      _parse_priority s = .high) ∧
    (pyStrip (pyLower s) ∈ (["low", "optional", "nice-to-have"] : List String) →
      _parse_priority s = .low) ∧
    (pyStrip (pyLower s) ∉
        (["high", "essential", "critical", "important"] : List String) →
     pyStrip (pyLower s) ∉ (["low", "optional", "nice-to-have"] : List String) →
      _parse_priority s = .medium) ∧
    (∀ x ∈ (["high", "HIGH", "essential", "critical", "important"] : List String),
      _parse_priority x = .high) ∧
    (∀ x ∈ (["low", "optional", "nice-to-have"] : List String),
      _parse_priority x = .low) ∧
    (∀ x ∈ (["medium", "unknown", ""] : List String),
      _parse_priority x = .medium) := by
  refine ⟨?_, ?_, ?_, by decide, by decide, by decide⟩
  · intro h
    simp only [_parse_priority]
    rw [if_pos h]
  · intro h
    have hn : pyStrip (pyLower s) ∉
        (["high", "essential", "critical", "important"] : List String) := by
      intro hh
      simp only [List.mem_cons, List.not_mem_nil, or_false] at h hh
      rcases h with h | h | h <;>
        rcases hh with hh | hh | hh | hh <;>
          rw [h] at hh <;> exact absurd hh (by decide)
    simp only [_parse_priority]
    rw [if_neg hn, if_pos h]
  · intro h1 h2
    simp only [_parse_priority]
    rw [if_neg h1, if_neg h2]

/-- Witness for C8 on a concrete mixed-case, padded synonym. -/
theorem claim_C8_witness :
    pyStrip (pyLower "  Critical ") ∈
      (["high", "essential", "critical", "important"] : List String) ∧
    _parse_priority "  Critical " = .high := by
  have h : pyStrip (pyLower "  Critical ") ∈
      (["high", "essential", "critical", "important"] : List String) := by decide
  exact ⟨h, (claim_C8_priority_synonyms "  Critical ").1 h⟩

/-- C9: `PaginatedResponse.create` derives `pages` as the ceiling of
`total / limit`, `has_next` as `page < pages` and `has_prev` as
`page > 1`; the three concrete cases of the claim evaluate as stated. -/
theorem claim_C9_pagination_derivation :
    (∀ (α : Type) (items : List α) (total page limit : Nat),
      1 ≤ page → 1 ≤ limit → limit ≤ 100 →
        (PaginatedResponse.create items total ⟨page, limit⟩).pages =
          total ⌈/⌉ limit ∧
        (PaginatedResponse.create items total ⟨page, limit⟩).has_next =
          decide (page < total ⌈/⌉ limit) ∧
        (PaginatedResponse.create items total ⟨page, limit⟩).has_prev =
          decide (1 < page)) ∧
    ((PaginatedResponse.create ([] : List Unit) 85 ⟨2, 20⟩).pages = 5 ∧
     (PaginatedResponse.create ([] : List Unit) 85 ⟨2, 20⟩).has_next = true ∧
     (PaginatedResponse.create ([] : List Unit) 85 ⟨2, 20⟩).has_prev = true) ∧
    ((PaginatedResponse.create ([] : List Unit) 45 ⟨5, 10⟩).pages = 5 ∧
     (PaginatedResponse.create ([] : List Unit) 45 ⟨5, 10⟩).has_next = false ∧
     (PaginatedResponse.create ([] : List Unit) 45 ⟨5, 10⟩).has_prev = true) ∧
    ((PaginatedResponse.create ([] : List Unit) 0 ⟨1, 10⟩).pages = 0 ∧
     (PaginatedResponse.create ([] : List Unit) 0 ⟨1, 10⟩).has_next = false ∧
     (PaginatedResponse.create ([] : List Unit) 0 ⟨1, 10⟩).has_prev = false) := by
  refine ⟨?_, by decide, by decide, by decide⟩
  intro α items total page limit hp hl hu
  refine ⟨?_, ?_, ?_⟩ <;>
    simp [PaginatedResponse.create, Nat.ceilDiv_eq_add_pred_div]

/-- Witness for C9 at the first concrete case of the claim. -/
theorem claim_C9_witness :
    ((1 ≤ 2) ∧ (1 ≤ 20) ∧ (20 ≤ 100)) ∧
    (PaginatedResponse.create ([] : List Unit) 85 ⟨2, 20⟩).pages = 85 ⌈/⌉ 20 := by
  exact ⟨⟨by norm_num, by norm_num, by norm_num⟩,
    (claim_C9_pagination_derivation.1 Unit [] 85 2 20 (by norm_num) (by norm_num)
      (by norm_num)).1⟩

/-- C10: fallback generation depends only on the trip's transport and
days: two valid trips agreeing on those two fields produce fallback lists
of equal length whose corresponding entries agree on text, category,
priority, checked and user_added (the abstracted ids and timestamps are
the only fields that may differ in the source). -/
theorem claim_C10_fallback_noninterference (t1 t2 : TripDataResponse)
    (h1 : t1.valid) (h2 : t2.valid)
    (htr : t1.transport = t2.transport) (hd : t1.days = t2.days) :
    (_generate_fallback_items t1).length = (_generate_fallback_items t2).length ∧
    (∀ (i : Nat) (hi1 : i < (_generate_fallback_items t1).length)
        (hi2 : i < (_generate_fallback_items t2).length),
      ((_generate_fallback_items t1).get ⟨i, hi1⟩).text =
        ((_generate_fallback_items t2).get ⟨i, hi2⟩).text ∧
      ((_generate_fallback_items t1).get ⟨i, hi1⟩).category =
        ((_generate_fallback_items t2).get ⟨i, hi2⟩).category ∧
      ((_generate_fallback_items t1).get ⟨i, hi1⟩).priority =
        ((_generate_fallback_items t2).get ⟨i, hi2⟩).priority ∧
      ((_generate_fallback_items t1).get ⟨i, hi1⟩).checked =
        ((_generate_fallback_items t2).get ⟨i, hi2⟩).checked ∧
      ((_generate_fallback_items t1).get ⟨i, hi1⟩).user_added =
        ((_generate_fallback_items t2).get ⟨i, hi2⟩).user_added) := by
  have he : _generate_fallback_items t1 = _generate_fallback_items t2 :=
    (fallback_congr t1 t2 htr (by rw [hd])).2
  constructor
  · rw [he]
  · intro i hi1 hi2
    have hg : (_generate_fallback_items t1).get ⟨i, hi1⟩ =
        (_generate_fallback_items t2).get ⟨i, hi2⟩ := by
      revert hi1
      rw [he]
      intro hi1
      rfl
    exact ⟨by rw [hg], by rw [hg], by rw [hg], by rw [hg], by rw [hg]⟩

/-- Witness for C10: two valid trips differing in location, occasion and
notes but agreeing on transport and days. -/
theorem claim_C10_witness :
    (⟨"Paris", 3, .car, "vacation", none, none⟩ : TripDataResponse).valid ∧
    (⟨"Tokyo", 3, .car, "business trip", some "pack light", none⟩ :
      TripDataResponse).valid ∧
    (_generate_fallback_items ⟨"Paris", 3, .car, "vacation", none, none⟩).length =
      (_generate_fallback_items
        ⟨"Tokyo", 3, .car, "business trip", some "pack light", none⟩).length := by
  have h1 : (⟨"Paris", 3, .car, "vacation", none, none⟩ : TripDataResponse).valid := by
    decide
  have h2 : (⟨"Tokyo", 3, .car, "business trip", some "pack light", none⟩ :
      TripDataResponse).valid := by decide
  exact ⟨h1, h2, (claim_C10_fallback_noninterference _ _ h1 h2 rfl rfl).1⟩
